import Mathlib

/-!
Verification development for the `minijinja-csharp` compatibility baseline
harness (`compatibility/baseline/src/main.rs`) and the template-engine core
specified alongside it.  The harness itself is a thin CLI: it dispatches on
`argv[1]`, reads fixture files, registers templates with the engine, renders
and prints.  The engine (lexing/parsing aside, which the harness never
observes directly) and the fixture templates are not part of `src/`, so they
are modelled from the specification text.
-/

namespace MiniJinja

/-- Modelled from the spec: the engine `Value` data model — a tagged variant
over None, Bool, Int, String, Sequence and Mapping (mapping keys are strings,
sequences preserve order), plus the distinguished `Undefined` sentinel for
absent variables/attributes.  Floats are omitted: no fixture nor claim
involves them. -/
inductive Value where
  | vnone : Value
  | vbool : Bool → Value
  | vint  : Int → Value
  | vstr  : String → Value
  | vseq  : List Value → Value
  | vmap  : List (String × Value) → Value
  | vundef : Value
deriving Repr, BEq

/-- Modelled from the spec: the string form of a value as emitted for an
expression node.  A string renders as itself, the undefined sentinel renders
as the empty string (tolerant mode), other scalars render in the usual
spelling. -/
def Value.toStr : Value → String
  | .vnone => "none"
  | .vbool b => if b then "true" else "false"
  | .vint n => toString n
  | .vstr s => s
  | .vseq _ => "[...]"
  | .vmap _ => "{...}"
  | .vundef => ""

/-- Modelled from the spec: the truthiness rule used by `if` —
None/empty string/empty sequence/zero/false are falsy, everything else
truthy; the undefined sentinel is falsy as well. -/
def truthy : Value → Bool
  | .vnone => false
  | .vbool b => b
  | .vint n => n != 0
  | .vstr s => s != ""
  | .vseq l => !l.isEmpty
  | .vmap m => !m.isEmpty
  | .vundef => false

/-- A scope is a chain of name-to-value bindings, innermost first; child
scopes are built by consing in front, so they see parent bindings. -/
def Scope := List (String × Value)

/-- Modelled from the spec: scope lookup walks the chain innermost-first and
yields the tolerant `Undefined` sentinel when the name is absent. -/
def lookupVar (sc : Scope) (n : String) : Value :=
  match sc with
  | [] => .vundef
  | (k, v) :: rest => if k = n then v else lookupVar rest n

/-- Modelled from the spec: attribute access on a Mapping returns the value
for a matching key, and triggers the tolerant undefined policy otherwise. -/
def attrGet (v : Value) (a : String) : Value :=
  match v with
  | .vmap m => lookupAttr m a
  | _ => .vundef
where
  lookupAttr : List (String × Value) → String → Value
    | [], _ => .vundef
    | (k, w) :: rest, a => if k = a then w else lookupAttr rest a

/-- Modelled from the spec: expression sub-trees — literals, variable
references, attribute access, logical negation, and filter application
(a pipeline stage receives the prior stage's output as first argument). -/
inductive Expr where
  | lit  : Value → Expr
  | var  : String → Expr
  | neg  : Expr → Expr
  | attr : Expr → String → Expr
  | filt : Expr → String → List Expr → Expr
deriving Repr

/-- True exactly on the Undefined sentinel and None, the two inputs the
`default` filter replaces. -/
def Value.isUndefOrNone : Value → Bool
  | .vundef => true
  | .vnone => true
  | _ => false

/-- Modelled from the spec: the built-in `default` filter returns its input
unchanged when it is not Undefined/None, else substitutes the supplied
fallback; unknown filters yield the undefined sentinel in tolerant mode. -/
def applyFilter (f : String) (v : Value) (args : List Value) : Value :=
  match f with
  | "default" =>
    match args with
    | [d] => if v.isUndefOrNone then d else v
    | _ => v
  | _ => .vundef

mutual
/-- Modelled from the spec: the expression evaluator, mapping an expression
sub-tree and a scope to a value (tolerant undefined policy). -/
def evalExpr (sc : Scope) : Expr → Value
  | .lit v => v
  | .var n => lookupVar sc n
  | .neg e => .vbool (!(truthy (evalExpr sc e)))
  | .attr e a => attrGet (evalExpr sc e) a
  | .filt e f args => applyFilter f (evalExpr sc e) (evalArgs sc args)

/-- Evaluates a list of filter-argument expressions left to right. -/
def evalArgs (sc : Scope) : List Expr → List Value
  | [] => []
  | e :: rest => evalExpr sc e :: evalArgs sc rest
end

/-- Modelled from the spec: AST nodes — literal text, expression
interpolation, if/else, for with an else clause, and named overridable
blocks.  `extends` lives on the template object, `set`/macros are not needed
by any claim and are omitted. -/
inductive Node where
  | text  : String → Node
  | expr  : Expr → Node
  | nif   : Expr → List Node → List Node → Node
  | nfor  : String → Expr → List Node → List Node → Node
  | block : String → List Node → Node
deriving Repr

/-- Modelled from the spec: the synthetic `loop` binding visible inside a
for-body, exposing the 0-based and 1-based index, first/last flags and the
length, recomputed per iteration. -/
def loopState (idx len : Nat) : Value :=
  .vmap [("index0", .vint idx), ("index", .vint (idx + 1)),
         ("first", .vbool (decide (idx = 0))),
         ("last", .vbool (decide (idx + 1 = len))),
         ("length", .vint len)]

/-- Modelled from the spec: coercion of a value to an iterable sequence —
a Sequence iterates its elements in order, a Mapping iterates its keys in
insertion order; anything else is not iterable. -/
def toSeq : Value → Option (List Value)
  | .vseq l => some l
  | .vmap m => some (m.map (fun p => .vstr p.1))
  | _ => none

mutual
/-- Modelled from the spec: rendering of a single AST node.  If/else picks
the branch by truthiness; for evaluates its iterable, renders the else
branch when it is empty, and otherwise renders the body once per element in
iteration order under a child scope binding the loop variable and the
synthetic `loop` state; a block renders its own body. -/
def renderNode (sc : Scope) : Node → String
  | .text s => s
  | .expr e => (evalExpr sc e).toStr
  | .nif c th el => if truthy (evalExpr sc c) then renderNodes sc th else renderNodes sc el
  | .nfor v it body els =>
    match toSeq (evalExpr sc it) with
    | none => ""
    | some items =>
      match items with
      | [] => renderNodes sc els
      | _ => renderFor sc v body items.length 0 items
  | .block _ body => renderNodes sc body
termination_by n => (sizeOf n, 0)

/-- Renders a node list left to right, concatenating the pieces. -/
def renderNodes (sc : Scope) : List Node → String
  | [] => ""
  | n :: rest => renderNode sc n ++ renderNodes sc rest
termination_by ns => (sizeOf ns, 0)

/-- Renders a for-body once per remaining item, binding the loop variable
and the per-iteration `loop` state in a child scope. -/
def renderFor (sc : Scope) (v : String) (body : List Node) (len : Nat) :
    Nat → List Value → String
  | _, [] => ""
  | idx, x :: rest =>
    renderNodes ((v, x) :: ("loop", loopState idx len) :: sc) body ++
      renderFor sc v body len (idx + 1) rest
termination_by _ items => (sizeOf body, items.length)
end

/-- Modelled from the spec: a registered template — an optional `extends`
parent name plus the template's own AST node list.  Created at registration
time and immutable thereafter. -/
structure Template where
  parent : Option String
  nodes : List Node
deriving Repr

/-- Modelled from the spec: the template registry, mapping unique names to
templates. -/
def Registry := List (String × Template)

/-- Modelled from the spec: registration is idempotent per name —
re-registering replaces the prior entry. -/
def addTemplate (r : Registry) (name : String) (t : Template) : Registry :=
  (name, t) :: List.filter (fun p => !(p.1 == name)) r

/-- Looks up a registered template by name. -/
def getTemplate (r : Registry) (name : String) : Option Template :=
  match r with
  | [] => none
  | (k, t) :: rest => if k = name then some t else getTemplate rest name

/-- The top-level named blocks of a node list, in order. -/
def blocksOf (ns : List Node) : List (String × List Node) :=
  ns.filterMap (fun n =>
    match n with
    | .block b body => some (b, body)
    | _ => none)

/-- Looks up an override body for a block name. -/
def lookupBlock (ov : List (String × List Node)) (b : String) : Option (List Node) :=
  match ov with
  | [] => none
  | (k, body) :: rest => if k = b then some body else lookupBlock rest b

/-- Modelled from the spec: block substitution on a single parent node — a
block the child overrides takes the child's body, a block the child does not
override keeps the parent's own body, and non-block nodes pass through. -/
def overrideNode (ov : List (String × List Node)) (n : Node) : Node :=
  match n with
  | .block b body =>
    match lookupBlock ov b with
    | some nb => .block b nb
    | none => .block b body
  | other => other

/-- Applies the child's block overrides across the parent's node list. -/
def applyOverrides (ov : List (String × List Node)) (ns : List Node) : List Node :=
  ns.map (overrideNode ov)

/-- Modelled from the spec: resolution flattens an inheritance chain from
the root ancestor down, applying each descendant's block overrides in order.
The fuel argument bounds the chain walk: a cycle (or a missing ancestor)
exhausts it and yields `none`, the ResolveError. -/
def resolve (r : Registry) (fuel : Nat) (name : String) : Option (List Node) :=
  match fuel with
  | 0 => none
  | fuel + 1 =>
    match getTemplate r name with
    | none => none
    | some t =>
      match t.parent with
      | none => some t.nodes
      | some p =>
        match resolve r fuel p with
        | none => none
        | some parentNodes => some (applyOverrides (blocksOf t.nodes) parentNodes)

/-- The root scope of a render call is the caller-supplied context
Mapping's own bindings. -/
def rootScope : Value → Scope
  | .vmap m => m
  | _ => []

/-- Modelled from the spec: `render(name, context)` — resolves the named
template (flattening inheritance; the registry size bounds the chain walk)
and renders it under the context's root scope.  `none` is the error result
for an unknown name or an unresolvable chain. -/
def render (r : Registry) (name : String) (ctx : Value) : Option String :=
  match resolve r (List.length r + 1) name with
  | none => none
  | some ns => some (renderNodes (rootScope ctx) ns)

end MiniJinja

namespace Harness

open MiniJinja

/-- An observable effect of the harness process: a fixture file read, an
engine call (template registration, template lookup, a render), or a chunk
written to standard output (`println!` output, trailing newline included). -/
inductive Eff where
  | read : String → Eff
  | addT : String → Eff
  | getT : String → Eff
  | renderT : String → Eff
  | print : String → Eff
deriving Repr, DecidableEq

/-- The outcome of each fallible step a case function performs, supplied
abstractly: the file system's answer to `fs::read_to_string`, and the
engine's answers to `add_template`, `get_template` and `render`.  `none`
models the error case, on which the harness's `unwrap` panics. -/
structure Outcomes where
  readFile : String → Option String
  addTemplate : String → String → Option Unit
  getTemplate : String → Option Template
  render : Template → Value → Option String

/-- The single-template case shape shared by all case functions except
`case1` (from `main.rs`): read the fixture file, register it under
"template", look it up, render it with the case's context, and print the
result followed by a newline.  Returns the effect trace and whether the
function ran to completion (`false` models an `unwrap` panic: the trace
stops at the failing step). -/
def runCase1 (o : Outcomes) (path : String) (ctx : Value) : List Eff × Bool :=
  match o.readFile path with
  | none => ([.read path], false)
  | some content =>
    match o.addTemplate "template" content with
    | none => ([.read path, .addT "template"], false)
    | some _ =>
      match o.getTemplate "template" with
      | none => ([.read path, .addT "template", .getT "template"], false)
      | some t =>
        match o.render t ctx with
        | none => ([.read path, .addT "template", .getT "template", .renderT "template"], false)
        | some s =>
          ([.read path, .addT "template", .getT "template", .renderT "template",
            .print (s ++ "\n")], true)

/-- The two-template case shape of `case1` (from `main.rs`): read the base
and child fixture files, register both, look up and render the child, and
print the result followed by a newline. -/
def runCase2 (o : Outcomes) (basePath baseName path name : String) (ctx : Value) :
    List Eff × Bool :=
  match o.readFile basePath with
  | none => ([.read basePath], false)
  | some baseContent =>
    match o.readFile path with
    | none => ([.read basePath, .read path], false)
    | some content =>
      match o.addTemplate baseName baseContent with
      | none => ([.read basePath, .read path, .addT baseName], false)
      | some _ =>
        match o.addTemplate name content with
        | none => ([.read basePath, .read path, .addT baseName, .addT name], false)
        | some _ =>
          match o.getTemplate name with
          | none => ([.read basePath, .read path, .addT baseName, .addT name, .getT name], false)
          | some t =>
            match o.render t ctx with
            | none =>
              ([.read basePath, .read path, .addT baseName, .addT name, .getT name,
                .renderT name], false)
            | some s =>
              ([.read basePath, .read path, .addT baseName, .addT name, .getT name,
                .renderT name, .print (s ++ "\n")], true)

/-- The context of `case0` (from `main.rs`): `name => "Ririko"`. -/
def case0Ctx : Value := .vmap [("name", .vstr "Ririko")]

/-- The context of `case1` (from `main.rs`): `name => "Ririko"`. -/
def case1Ctx : Value := .vmap [("name", .vstr "Ririko")]

/-- The context of `case2` (from `main.rs`):
`items => vec!["apple", "banana", "cherry"]`. -/
def case2Ctx : Value :=
  .vmap [("items", .vseq [.vstr "apple", .vstr "banana", .vstr "cherry"])]

/-- The context of `case3` (from `main.rs`): `show => true, name => "Ririko"`. -/
def case3Ctx : Value := .vmap [("show", .vbool true), ("name", .vstr "Ririko")]

/-- The context of `case4` (from `main.rs`): `name => "Ririko"`. -/
def case4Ctx : Value := .vmap [("name", .vstr "Ririko")]

/-- The context of `case5` (from `main.rs`): `name => "Ririko"`. -/
def case5Ctx : Value := .vmap [("name", .vstr "Ririko")]

/-- The context of `case6` (from `main.rs`): `name => "Ririko"`. -/
def case6Ctx : Value := .vmap [("name", .vstr "Ririko")]

/-- The context of `case7` (from `main.rs`):
`user => context! { name => "Ririko", age => 25 }`. -/
def case7Ctx : Value :=
  .vmap [("user", .vmap [("name", .vstr "Ririko"), ("age", .vint 25)])]

/-- The context of `case8` (from `main.rs`):
`items => vec!["apple", "banana", "cherry"]`. -/
def case8Ctx : Value :=
  .vmap [("items", .vseq [.vstr "apple", .vstr "banana", .vstr "cherry"])]

/-- The context of `case9` (from `main.rs`): `value => "Hello"`. -/
def case9Ctx : Value := .vmap [("value", .vstr "Hello")]

/-- The context of `case10` (from `main.rs`): `name => "Ririko"`. -/
def case10Ctx : Value := .vmap [("name", .vstr "Ririko")]

/-- The context of `case11` (from `main.rs`):
`matrix => vec![vec![1, 2, 3], vec![4, 5, 6], vec![7, 8, 9]]`. -/
def case11Ctx : Value :=
  .vmap [("matrix", .vseq
    [.vseq [.vint 1, .vint 2, .vint 3],
     .vseq [.vint 4, .vint 5, .vint 6],
     .vseq [.vint 7, .vint 8, .vint 9]])]

/-- `case0` from `main.rs`. -/
def case0 (o : Outcomes) : List Eff × Bool :=
  runCase1 o "../cases/case0/template.txt" case0Ctx

/-- `case1` from `main.rs`: registers the parent under "base.txt" and the
child under "template", then renders "template". -/
def case1 (o : Outcomes) : List Eff × Bool :=
  runCase2 o "../cases/case1/base.txt" "base.txt" "../cases/case1/template.txt" "template"
    case1Ctx

/-- `case2` from `main.rs`. -/
def case2 (o : Outcomes) : List Eff × Bool :=
  runCase1 o "../cases/case2/template.txt" case2Ctx

/-- `case3` from `main.rs`. -/
def case3 (o : Outcomes) : List Eff × Bool :=
  runCase1 o "../cases/case3/template.txt" case3Ctx

/-- `case4` from `main.rs`. -/
def case4 (o : Outcomes) : List Eff × Bool :=
  runCase1 o "../cases/case4/template.txt" case4Ctx

/-- `case5` from `main.rs`. -/
def case5 (o : Outcomes) : List Eff × Bool :=
  runCase1 o "../cases/case5/template.txt" case5Ctx

/-- `case6` from `main.rs`. -/
def case6 (o : Outcomes) : List Eff × Bool :=
  runCase1 o "../cases/case6/template.txt" case6Ctx

/-- `case7` from `main.rs`. -/
def case7 (o : Outcomes) : List Eff × Bool :=
  runCase1 o "../cases/case7/template.txt" case7Ctx

/-- `case8` from `main.rs`. -/
def case8 (o : Outcomes) : List Eff × Bool :=
  runCase1 o "../cases/case8/template.txt" case8Ctx

/-- `case9` from `main.rs`. -/
def case9 (o : Outcomes) : List Eff × Bool :=
  runCase1 o "../cases/case9/template.txt" case9Ctx

/-- `case10` from `main.rs`. -/
def case10 (o : Outcomes) : List Eff × Bool :=
  runCase1 o "../cases/case10/template.txt" case10Ctx

/-- `case11` from `main.rs`. -/
def case11 (o : Outcomes) : List Eff × Bool :=
  runCase1 o "../cases/case11/template.txt" case11Ctx

/-- `main` from `main.rs`: with fewer than two argv entries it prints
"invalid input" and returns; otherwise it matches `args[1]` against the
twelve case identifiers, dispatching to the case function, and prints
"invalid input" on anything else. -/
def mainRun (o : Outcomes) (args : List String) : List Eff × Bool :=
  match args with
  | _ :: arg1 :: _ =>
    match arg1 with
    | "case0" => case0 o
    | "case1" => case1 o
    | "case2" => case2 o
    | "case3" => case3 o
    | "case4" => case4 o
    | "case5" => case5 o
    | "case6" => case6 o
    | "case7" => case7 o
    | "case8" => case8 o
    | "case9" => case9 o
    | "case10" => case10 o
    | "case11" => case11 o
    | _ => ([.print "invalid input\n"], true)
  | _ => ([.print "invalid input\n"], true)

/-- The fixture files the harness can ever read, one or two per case. -/
def fixturePaths : List String :=
  ["../cases/case0/template.txt",
   "../cases/case1/base.txt", "../cases/case1/template.txt",
   "../cases/case2/template.txt", "../cases/case3/template.txt",
   "../cases/case4/template.txt", "../cases/case5/template.txt",
   "../cases/case6/template.txt", "../cases/case7/template.txt",
   "../cases/case8/template.txt", "../cases/case9/template.txt",
   "../cases/case10/template.txt", "../cases/case11/template.txt"]

/-- The twelve case identifiers `main` recognizes. -/
def caseIds : List String :=
  ["case0", "case1", "case2", "case3", "case4", "case5",
   "case6", "case7", "case8", "case9", "case10", "case11"]

/-- An outcome environment in which every step succeeds, used to exercise
the success paths at concrete inputs. -/
def okOutcomes : Outcomes where
  readFile := fun _ => some "src"
  addTemplate := fun _ _ => some ()
  getTemplate := fun _ => some ⟨none, []⟩
  render := fun _ _ => some "out"

/-- An outcome environment in which every step fails, used to exercise the
failure paths at concrete inputs. -/
def errOutcomes : Outcomes where
  readFile := fun _ => none
  addTemplate := fun _ _ => none
  getTemplate := fun _ => none
  render := fun _ _ => none

/-- An outcome environment agreeing with `okOutcomes` everywhere except at
a file path the harness never reads, used to exercise determinism. -/
def okOutcomes2 : Outcomes where
  readFile := fun p => if p = "other" then none else some "src"
  addTemplate := fun _ _ => some ()
  getTemplate := fun _ => some ⟨none, []⟩
  render := fun _ _ => some "out"

end Harness

namespace MiniJinja

/-- Modelled from the spec: the case2 fixture (`cases/case2/template.txt`,
not under `src/`) — a for-loop over `items` printing each item joined by
`", "`, realized with the loop-first flag. -/
def case2Template : Template :=
  ⟨none, [.nfor "item" (.var "items")
    [.nif (.neg (.attr (.var "loop") "first")) [.text ", "] [],
     .expr (.var "item")] []]⟩

/-- Modelled from the spec: the case9 fixture (`cases/case9/template.txt`,
not under `src/`) — an interpolation of `value` piped through
`default("X")`. -/
def case9Template : Template :=
  ⟨none, [.expr (.filt (.var "value") "default" [.lit (.vstr "X")])]⟩

/-- Modelled from the spec: the case11 fixture (`cases/case11/template.txt`,
not under `src/`) — nested loops over `matrix` printing row-major, cells
separated by a space and rows by a newline. -/
def case11Template : Template :=
  ⟨none, [.nfor "row" (.var "matrix")
    [.nfor "cell" (.var "row")
      [.expr (.var "cell"),
       .nif (.neg (.attr (.var "loop") "last")) [.text " "] []] [],
     .nif (.neg (.attr (.var "loop") "last")) [.text "\n"] []] []]⟩

/-- Modelled from the spec: the case1 parent fixture (`cases/case1/base.txt`,
not under `src/`) — a base template with two named blocks, one of which the
child overrides. -/
def case1Base : Template :=
  ⟨none, [.text "Header\n",
          .block "content" [.text "default content"],
          .text "\nFooter ",
          .block "footer" [.text "base footer"]]⟩

/-- Modelled from the spec: the case1 child fixture
(`cases/case1/template.txt`, not under `src/`) — extends "base.txt" and
overrides the "content" block. -/
def case1Child : Template :=
  ⟨some "base.txt", [.block "content" [.text "Hello ", .expr (.var "name")]]⟩

end MiniJinja

namespace MiniJinja

/-- C3: rendering the case2 for-loop fixture over the sequence
`["apple", "banana", "cherry"]` yields `"apple, banana, cherry"`, the
concatenation of the elements' string forms in iteration order, and the
case2 context binds exactly this sequence to the name `items`. -/
theorem case2_for_loop_render :
    render [("template", case2Template)] "template" Harness.case2Ctx
      = some "apple, banana, cherry"
    ∧ Harness.case2Ctx
      = Value.vmap [("items", .vseq [.vstr "apple", .vstr "banana", .vstr "cherry"])] := by
  refine ⟨?_, rfl⟩
  simp [render, resolve, getTemplate, case2Template, applyOverrides, blocksOf, rootScope,
    Harness.case2Ctx, renderNodes, renderNode, renderFor, evalExpr, lookupVar, toSeq,
    truthy, attrGet, attrGet.lookupAttr, loopState, Value.toStr]

/-- C4: rendering the case11 nested-loop fixture over the 3×3 matrix
`[[1,2,3],[4,5,6],[7,8,9]]` in row-major order yields
`"1 2 3\n4 5 6\n7 8 9"` with the fixture's separators, and the case11
context binds exactly this matrix to the name `matrix`. -/
theorem case11_matrix_render :
    render [("template", case11Template)] "template" Harness.case11Ctx
      = some "1 2 3\n4 5 6\n7 8 9"
    ∧ Harness.case11Ctx
      = Value.vmap [("matrix", .vseq
          [.vseq [.vint 1, .vint 2, .vint 3],
           .vseq [.vint 4, .vint 5, .vint 6],
           .vseq [.vint 7, .vint 8, .vint 9]])] := by
  refine ⟨?_, rfl⟩
  simp [render, resolve, getTemplate, case11Template, applyOverrides, blocksOf,
    rootScope, Harness.case11Ctx, renderNodes, renderNode, renderFor, evalExpr, lookupVar,
    toSeq, truthy, attrGet, attrGet.lookupAttr, loopState, Value.toStr]
  decide

/-- C5: the `default` filter substitutes its fallback for an Undefined
input — rendering the case9 fixture with no `value` binding yields "X" —
and leaves any defined, non-Undefined/None value unchanged: rendering with
`value` bound to such a `v` yields `v`'s string form.  The case9 context
binds the defined value "Hello" to the name `value`. -/
theorem default_filter_render :
    render [("template", case9Template)] "template" (Value.vmap []) = some "X"
    ∧ (∀ v : Value, v.isUndefOrNone = false →
        render [("template", case9Template)] "template" (Value.vmap [("value", v)])
          = some v.toStr)
    ∧ Harness.case9Ctx = Value.vmap [("value", .vstr "Hello")] := by
  refine ⟨?_, ?_, rfl⟩
  · simp [render, resolve, getTemplate, case9Template, rootScope, renderNodes, renderNode,
      evalExpr, evalArgs, lookupVar, applyFilter, Value.isUndefOrNone, Value.toStr]
  · intro v h
    simp [render, resolve, getTemplate, case9Template, rootScope, renderNodes, renderNode,
      evalExpr, evalArgs, lookupVar, applyFilter, h]

/-- C5 witness: at the defined value "Hello" (not Undefined/None) the
case9 fixture renders "Hello", that value's string form. -/
theorem default_filter_render_witness :
    Value.isUndefOrNone (.vstr "Hello") = false
    ∧ render [("template", case9Template)] "template"
        (Value.vmap [("value", .vstr "Hello")]) = some (Value.toStr (.vstr "Hello")) :=
  ⟨rfl, default_filter_render.2.1 (.vstr "Hello") rfl⟩

/-- C9: re-registering a name replaces the prior entry — registering the
same name twice is the same registry as registering only the second
template, lookup after registration finds the latest template, and every
subsequent render (under any name and context) uses only the latest
source. -/
theorem register_replaces :
    (∀ (r : Registry) (n : String) (t1 t2 : Template),
      addTemplate (addTemplate r n t1) n t2 = addTemplate r n t2)
    ∧ (∀ (r : Registry) (n : String) (t : Template),
      getTemplate (addTemplate r n t) n = some t)
    ∧ (∀ (r : Registry) (n : String) (t1 t2 : Template) (rn : String) (ctx : Value),
      render (addTemplate (addTemplate r n t1) n t2) rn ctx
        = render (addTemplate r n t2) rn ctx) := by
  have hadd : ∀ (r : Registry) (n : String) (t1 t2 : Template),
      addTemplate (addTemplate r n t1) n t2 = addTemplate r n t2 := by
    intro r n t1 t2
    simp [addTemplate, List.filter_filter]
  refine ⟨hadd, ?_, ?_⟩
  · intro r n t
    simp [addTemplate, getTemplate]
  · intro r n t1 t2 rn ctx
    rw [hadd]

/-- C6: a block the child overrides renders the child's content in the
flattened template, a block the child does not override renders the
parent's own content, flattening a child-extends-parent registry applies
the child's overrides across the parent's nodes, and case1's concrete
parent/child pair (parent registered under "base.txt", child under
"template", child rendered) produces the override of "content" and the
parent's "footer". -/
theorem inheritance_override_render :
    (∀ (sc : Scope) (ov : List (String × List Node)) (b : String) (body nb : List Node),
      lookupBlock ov b = some nb →
        renderNode sc (overrideNode ov (.block b body)) = renderNodes sc nb)
    ∧ (∀ (sc : Scope) (ov : List (String × List Node)) (b : String) (body : List Node),
      lookupBlock ov b = none →
        renderNode sc (overrideNode ov (.block b body)) = renderNodes sc body)
    ∧ (∀ (parentNodes childNodes : List Node) (ctx : Value),
      render [("base.txt", ⟨none, parentNodes⟩), ("template", ⟨some "base.txt", childNodes⟩)]
          "template" ctx
        = some (renderNodes (rootScope ctx) (applyOverrides (blocksOf childNodes) parentNodes)))
    ∧ render (addTemplate (addTemplate [] "base.txt" case1Base) "template" case1Child)
        "template" Harness.case1Ctx
      = some "Header\nHello Ririko\nFooter base footer" := by
  refine ⟨?_, ?_, ?_, ?_⟩
  · intro sc ov b body nb h
    simp [overrideNode, h, renderNode]
  · intro sc ov b body h
    simp [overrideNode, h, renderNode]
  · intro parentNodes childNodes ctx
    simp [render, resolve, getTemplate]
  · simp [render, resolve, getTemplate, addTemplate, case1Base, case1Child,
      applyOverrides, overrideNode, blocksOf, lookupBlock, rootScope, Harness.case1Ctx,
      renderNodes, renderNode, evalExpr, lookupVar, Value.toStr]

/-- C6 witness: a concrete override list replaces the "content" block's
body and leaves the non-overridden "footer" block rendering its own body. -/
theorem inheritance_override_render_witness :
    lookupBlock [("content", [Node.text "new"])] "content" = some [Node.text "new"]
    ∧ renderNode []
        (overrideNode [("content", [Node.text "new"])] (.block "content" [.text "old"]))
      = renderNodes [] [Node.text "new"]
    ∧ lookupBlock [("content", [Node.text "new"])] "footer" = none
    ∧ renderNode []
        (overrideNode [("content", [Node.text "new"])] (.block "footer" [.text "old"]))
      = renderNodes [] [Node.text "old"] :=
  ⟨rfl,
   inheritance_override_render.1 [] [("content", [Node.text "new"])] "content"
     [.text "old"] [Node.text "new"] rfl,
   rfl,
   inheritance_override_render.2.1 [] [("content", [Node.text "new"])] "footer"
     [.text "old"] rfl⟩

end MiniJinja

namespace Harness

open MiniJinja

/-- C1: `main` dispatches each of the twelve identifiers "case0".."case11"
to exactly the corresponding case function; each case function invokes the
engine on its own case's fixture file with its own context; and whenever
the read/register/lookup/render steps succeed the trace ends by printing
the rendered string followed by a newline. -/
theorem main_dispatch (o : Outcomes) (a0 : String) (rest : List String) :
    (mainRun o (a0 :: "case0" :: rest) = case0 o
     ∧ mainRun o (a0 :: "case1" :: rest) = case1 o
     ∧ mainRun o (a0 :: "case2" :: rest) = case2 o
     ∧ mainRun o (a0 :: "case3" :: rest) = case3 o
     ∧ mainRun o (a0 :: "case4" :: rest) = case4 o
     ∧ mainRun o (a0 :: "case5" :: rest) = case5 o
     ∧ mainRun o (a0 :: "case6" :: rest) = case6 o
     ∧ mainRun o (a0 :: "case7" :: rest) = case7 o
     ∧ mainRun o (a0 :: "case8" :: rest) = case8 o
     ∧ mainRun o (a0 :: "case9" :: rest) = case9 o
     ∧ mainRun o (a0 :: "case10" :: rest) = case10 o
     ∧ mainRun o (a0 :: "case11" :: rest) = case11 o)
    ∧ (case0 o = runCase1 o "../cases/case0/template.txt" case0Ctx
     ∧ case1 o = runCase2 o "../cases/case1/base.txt" "base.txt"
         "../cases/case1/template.txt" "template" case1Ctx
     ∧ case2 o = runCase1 o "../cases/case2/template.txt" case2Ctx
     ∧ case3 o = runCase1 o "../cases/case3/template.txt" case3Ctx
     ∧ case4 o = runCase1 o "../cases/case4/template.txt" case4Ctx
     ∧ case5 o = runCase1 o "../cases/case5/template.txt" case5Ctx
     ∧ case6 o = runCase1 o "../cases/case6/template.txt" case6Ctx
     ∧ case7 o = runCase1 o "../cases/case7/template.txt" case7Ctx
     ∧ case8 o = runCase1 o "../cases/case8/template.txt" case8Ctx
     ∧ case9 o = runCase1 o "../cases/case9/template.txt" case9Ctx
     ∧ case10 o = runCase1 o "../cases/case10/template.txt" case10Ctx
     ∧ case11 o = runCase1 o "../cases/case11/template.txt" case11Ctx)
    ∧ (∀ (path : String) (ctx : Value) (content : String) (t : Template) (s : String),
        o.readFile path = some content →
        o.addTemplate "template" content = some () →
        o.getTemplate "template" = some t →
        o.render t ctx = some s →
        runCase1 o path ctx
          = ([.read path, .addT "template", .getT "template", .renderT "template",
              .print (s ++ "\n")], true))
    ∧ (∀ (basePath baseName path nm : String) (ctx : Value) (bc c : String)
        (t : Template) (s : String),
        o.readFile basePath = some bc →
        o.readFile path = some c →
        o.addTemplate baseName bc = some () →
        o.addTemplate nm c = some () →
        o.getTemplate nm = some t →
        o.render t ctx = some s →
        runCase2 o basePath baseName path nm ctx
          = ([.read basePath, .read path, .addT baseName, .addT nm, .getT nm, .renderT nm,
              .print (s ++ "\n")], true)) := by
  refine ⟨⟨rfl, rfl, rfl, rfl, rfl, rfl, rfl, rfl, rfl, rfl, rfl, rfl⟩,
    ⟨rfl, rfl, rfl, rfl, rfl, rfl, rfl, rfl, rfl, rfl, rfl, rfl⟩, ?_, ?_⟩
  · intro path ctx content t s h1 h2 h3 h4
    simp [runCase1, h1, h2, h3, h4]
  · intro basePath baseName path nm ctx bc c t s h1 h2 h3 h4 h5 h6
    simp [runCase2, h1, h2, h3, h4, h5, h6]

/-- C1 witness: under the all-success outcome environment the
single-template case shape reads its file, registers, looks up, renders and
prints the rendered string with a trailing newline. -/
theorem main_dispatch_witness :
    okOutcomes.readFile "p" = some "src"
    ∧ okOutcomes.addTemplate "template" "src" = some ()
    ∧ okOutcomes.getTemplate "template" = some ⟨none, []⟩
    ∧ okOutcomes.render ⟨none, []⟩ (.vmap []) = some "out"
    ∧ runCase1 okOutcomes "p" (.vmap [])
      = ([.read "p", .addT "template", .getT "template", .renderT "template",
          .print ("out" ++ "\n")], true) :=
  ⟨rfl, rfl, rfl, rfl,
   (main_dispatch okOutcomes "x" []).2.2.1 "p" (.vmap []) "src" ⟨none, []⟩ "out"
     rfl rfl rfl rfl⟩

/-- C2: a case function prints something only when file reading, template
registration, template lookup and rendering all succeeded, and then what it
prints is exactly the whole rendered string (with the trailing newline) —
rendering output is all-or-nothing per call.  Stated for both case shapes. -/
theorem print_all_or_nothing (o : Outcomes) (path basePath baseName nm : String)
    (ctx : Value) (s : String) :
    (Eff.print s ∈ (runCase1 o path ctx).1 →
      ∃ content t out,
        o.readFile path = some content
        ∧ o.addTemplate "template" content = some ()
        ∧ o.getTemplate "template" = some t
        ∧ o.render t ctx = some out
        ∧ s = out ++ "\n" ∧ (runCase1 o path ctx).2 = true)
    ∧ (Eff.print s ∈ (runCase2 o basePath baseName path nm ctx).1 →
      ∃ bc c t out,
        o.readFile basePath = some bc
        ∧ o.readFile path = some c
        ∧ o.addTemplate baseName bc = some ()
        ∧ o.addTemplate nm c = some ()
        ∧ o.getTemplate nm = some t
        ∧ o.render t ctx = some out
        ∧ s = out ++ "\n" ∧ (runCase2 o basePath baseName path nm ctx).2 = true) := by
  constructor
  · intro hmem
    cases h1 : o.readFile path with
    | none => simp [runCase1, h1] at hmem
    | some content =>
      cases h2 : o.addTemplate "template" content with
      | none => simp [runCase1, h1, h2] at hmem
      | some u =>
        cases u
        cases h3 : o.getTemplate "template" with
        | none => simp [runCase1, h1, h2, h3] at hmem
        | some t =>
          cases h4 : o.render t ctx with
          | none => simp [runCase1, h1, h2, h3, h4] at hmem
          | some out =>
            simp only [runCase1, h1, h2, h3, h4] at hmem
            simp at hmem
            exact ⟨content, t, out, by simp [h1], by simp [h2], by simp [h3], by simp [h4],
              hmem, by simp [runCase1, h1, h2, h3, h4]⟩
  · intro hmem
    cases h1 : o.readFile basePath with
    | none => simp [runCase2, h1] at hmem
    | some bc =>
      cases h2 : o.readFile path with
      | none => simp [runCase2, h1, h2] at hmem
      | some c =>
        cases h3 : o.addTemplate baseName bc with
        | none => simp [runCase2, h1, h2, h3] at hmem
        | some u1 =>
          cases u1
          cases h4 : o.addTemplate nm c with
          | none => simp [runCase2, h1, h2, h3, h4] at hmem
          | some u2 =>
            cases u2
            cases h5 : o.getTemplate nm with
            | none => simp [runCase2, h1, h2, h3, h4, h5] at hmem
            | some t =>
              cases h6 : o.render t ctx with
              | none => simp [runCase2, h1, h2, h3, h4, h5, h6] at hmem
              | some out =>
                simp only [runCase2, h1, h2, h3, h4, h5, h6] at hmem
                simp at hmem
                exact ⟨bc, c, t, out, by simp [h1], by simp [h2], by simp [h3],
                  by simp [h4], by simp [h5], by simp [h6], hmem,
                  by simp [runCase2, h1, h2, h3, h4, h5, h6]⟩

/-- C2 witness: under the all-success outcome environment the printed
string is the rendered output followed by a newline, and all four steps are
recorded as having succeeded. -/
theorem print_all_or_nothing_witness :
    Eff.print ("out" ++ "\n") ∈ (runCase1 okOutcomes "p" (.vmap [])).1
    ∧ ∃ content t out,
        okOutcomes.readFile "p" = some content
        ∧ okOutcomes.addTemplate "template" content = some ()
        ∧ okOutcomes.getTemplate "template" = some t
        ∧ okOutcomes.render t (.vmap []) = some out
        ∧ ("out" ++ "\n") = out ++ "\n"
        ∧ (runCase1 okOutcomes "p" (.vmap [])).2 = true :=
  ⟨by simp [runCase1, okOutcomes],
   (print_all_or_nothing okOutcomes "p" "b" "bn" "t" (.vmap []) ("out" ++ "\n")).1
     (by simp [runCase1, okOutcomes])⟩

/-- C7: each case supplies the engine a pre-built context Mapping, a
successful run writes exactly the string returned by render (plus the
newline `println!` adds) to standard output, and a failing read,
registration, lookup or render step ends the run abnormally (the `unwrap`
panic report) with no print ever emitted. -/
theorem cli_render_or_error (o : Outcomes) (path : String) (ctx : Value) :
    ((∃ m, case0Ctx = Value.vmap m) ∧ (∃ m, case1Ctx = Value.vmap m)
     ∧ (∃ m, case2Ctx = Value.vmap m) ∧ (∃ m, case3Ctx = Value.vmap m)
     ∧ (∃ m, case4Ctx = Value.vmap m) ∧ (∃ m, case5Ctx = Value.vmap m)
     ∧ (∃ m, case6Ctx = Value.vmap m) ∧ (∃ m, case7Ctx = Value.vmap m)
     ∧ (∃ m, case8Ctx = Value.vmap m) ∧ (∃ m, case9Ctx = Value.vmap m)
     ∧ (∃ m, case10Ctx = Value.vmap m) ∧ (∃ m, case11Ctx = Value.vmap m))
    ∧ (∀ content t s,
        o.readFile path = some content →
        o.addTemplate "template" content = some () →
        o.getTemplate "template" = some t →
        o.render t ctx = some s →
        (runCase1 o path ctx).1.getLast? = some (.print (s ++ "\n"))
        ∧ (runCase1 o path ctx).2 = true)
    ∧ (o.readFile path = none →
        runCase1 o path ctx = ([.read path], false))
    ∧ (∀ content,
        o.readFile path = some content →
        o.addTemplate "template" content = none →
        runCase1 o path ctx = ([.read path, .addT "template"], false))
    ∧ (∀ content,
        o.readFile path = some content →
        o.addTemplate "template" content = some () →
        o.getTemplate "template" = none →
        runCase1 o path ctx = ([.read path, .addT "template", .getT "template"], false))
    ∧ (∀ content t,
        o.readFile path = some content →
        o.addTemplate "template" content = some () →
        o.getTemplate "template" = some t →
        o.render t ctx = none →
        runCase1 o path ctx
          = ([.read path, .addT "template", .getT "template", .renderT "template"], false)) := by
  refine ⟨⟨⟨_, rfl⟩, ⟨_, rfl⟩, ⟨_, rfl⟩, ⟨_, rfl⟩, ⟨_, rfl⟩, ⟨_, rfl⟩, ⟨_, rfl⟩, ⟨_, rfl⟩,
    ⟨_, rfl⟩, ⟨_, rfl⟩, ⟨_, rfl⟩, ⟨_, rfl⟩⟩, ?_, ?_, ?_, ?_, ?_⟩
  · intro content t s h1 h2 h3 h4
    simp [runCase1, h1, h2, h3, h4]
  · intro h1
    simp [runCase1, h1]
  · intro content h1 h2
    simp [runCase1, h1, h2]
  · intro content h1 h2 h3
    simp [runCase1, h1, h2, h3]
  · intro content t h1 h2 h3 h4
    simp [runCase1, h1, h2, h3, h4]

/-- C7 witness: under the all-failing outcome environment the file read
fails and the run stops at the read with no output; under the all-success
environment the last effect is printing the rendered string. -/
theorem cli_render_or_error_witness :
    errOutcomes.readFile "p" = none
    ∧ runCase1 errOutcomes "p" (.vmap []) = ([.read "p"], false)
    ∧ (runCase1 okOutcomes "q" (.vmap [])).1.getLast? = some (.print ("out" ++ "\n")) :=
  ⟨rfl, (cli_render_or_error errOutcomes "p" (.vmap [])).2.2.1 rfl,
   ((cli_render_or_error okOutcomes "q" (.vmap [])).2.1 "src" ⟨none, []⟩ "out"
     rfl rfl rfl rfl).1⟩

/-- Helper: the single-template case shape is determined by the file
system's answer at its fixture path and the engine's answers — two outcome
environments that agree there produce identical traces. -/
theorem runCase1_congr (o1 o2 : Outcomes) (path : String) (ctx : Value)
    (hr : o1.readFile path = o2.readFile path)
    (ha : ∀ nm c, o1.addTemplate nm c = o2.addTemplate nm c)
    (hg : ∀ nm, o1.getTemplate nm = o2.getTemplate nm)
    (hd : ∀ t c, o1.render t c = o2.render t c) :
    runCase1 o1 path ctx = runCase1 o2 path ctx := by
  unfold runCase1
  rw [hr]
  cases o2.readFile path with
  | none => rfl
  | some content =>
    dsimp only
    rw [ha]
    cases o2.addTemplate "template" content with
    | none => rfl
    | some u =>
      dsimp only
      rw [hg]
      cases o2.getTemplate "template" with
      | none => rfl
      | some t =>
        dsimp only
        rw [hd]

/-- Helper: the two-template case shape is determined by the file system's
answers at its two fixture paths and the engine's answers. -/
theorem runCase2_congr (o1 o2 : Outcomes) (basePath baseName path nm : String) (ctx : Value)
    (hrb : o1.readFile basePath = o2.readFile basePath)
    (hr : o1.readFile path = o2.readFile path)
    (ha : ∀ n c, o1.addTemplate n c = o2.addTemplate n c)
    (hg : ∀ n, o1.getTemplate n = o2.getTemplate n)
    (hd : ∀ t c, o1.render t c = o2.render t c) :
    runCase2 o1 basePath baseName path nm ctx = runCase2 o2 basePath baseName path nm ctx := by
  unfold runCase2
  rw [hrb]
  cases o2.readFile basePath with
  | none => rfl
  | some bc =>
    dsimp only
    rw [hr]
    cases o2.readFile path with
    | none => rfl
    | some c =>
      dsimp only
      rw [ha]
      cases o2.addTemplate baseName bc with
      | none => rfl
      | some u1 =>
        dsimp only
        rw [ha]
        cases o2.addTemplate nm c with
        | none => rfl
        | some u2 =>
          dsimp only
          rw [hg]
          cases o2.getTemplate nm with
          | none => rfl
          | some t =>
            dsimp only
            rw [hd]

/-- Helper: an argument vector whose second entry is none of the twelve
case identifiers lands in `main`'s default arm, which prints the
"invalid input" line and returns. -/
theorem mainRun_invalid (o : Outcomes) (a0 arg1 : String) (rest : List String)
    (h : arg1 ∉ caseIds) :
    mainRun o (a0 :: arg1 :: rest) = ([.print "invalid input\n"], true) := by
  simp only [mainRun]
  split
  all_goals first
    | rfl
    | simp [caseIds] at h

/-- C8: rendering is deterministic — the harness's standard-output trace is
a function of the fixture file contents and the engine's
(single-threaded, I/O-free) answers alone: two outcome environments that
agree on the fixture paths and on every engine call produce identical
traces for every argument vector. -/
theorem render_deterministic (o1 o2 : Outcomes) (args : List String)
    (hr : ∀ p ∈ fixturePaths, o1.readFile p = o2.readFile p)
    (ha : ∀ nm c, o1.addTemplate nm c = o2.addTemplate nm c)
    (hg : ∀ nm, o1.getTemplate nm = o2.getTemplate nm)
    (hd : ∀ t c, o1.render t c = o2.render t c) :
    mainRun o1 args = mainRun o2 args := by
  have k1 : ∀ path ctx, path ∈ fixturePaths →
      runCase1 o1 path ctx = runCase1 o2 path ctx := fun path ctx hp =>
    runCase1_congr o1 o2 path ctx (hr path hp) ha hg hd
  cases args with
  | nil => rfl
  | cons a0 rest' =>
    cases rest' with
    | nil => rfl
    | cons arg1 rest =>
      by_cases hmem : arg1 ∈ caseIds
      · simp only [caseIds, List.mem_cons, List.not_mem_nil, or_false] at hmem
        rcases hmem with h | h | h | h | h | h | h | h | h | h | h | h
        all_goals subst h
        · exact k1 _ _ (by simp [fixturePaths])
        · exact runCase2_congr o1 o2 _ _ _ _ _
            (hr _ (by simp [fixturePaths])) (hr _ (by simp [fixturePaths])) ha hg hd
        · exact k1 _ _ (by simp [fixturePaths])
        · exact k1 _ _ (by simp [fixturePaths])
        · exact k1 _ _ (by simp [fixturePaths])
        · exact k1 _ _ (by simp [fixturePaths])
        · exact k1 _ _ (by simp [fixturePaths])
        · exact k1 _ _ (by simp [fixturePaths])
        · exact k1 _ _ (by simp [fixturePaths])
        · exact k1 _ _ (by simp [fixturePaths])
        · exact k1 _ _ (by simp [fixturePaths])
        · exact k1 _ _ (by simp [fixturePaths])
      · rw [mainRun_invalid o1 a0 arg1 rest hmem, mainRun_invalid o2 a0 arg1 rest hmem]

/-- C8 witness: two concrete outcome environments that differ only at a
non-fixture path produce identical traces for `case3`. -/
theorem render_deterministic_witness :
    mainRun okOutcomes ["p", "case3"] = mainRun okOutcomes2 ["p", "case3"] :=
  render_deterministic okOutcomes okOutcomes2 ["p", "case3"]
    (by intro p hp; fin_cases hp <;> rfl)
    (fun _ _ => rfl) (fun _ => rfl) (fun _ _ => rfl)

/-- C10: with fewer than two argv entries, and with a second entry that is
none of "case0".."case11", the program prints exactly the
"invalid input" line, performs no file reads and no engine calls (the
trace holds nothing else), and returns normally. -/
theorem invalid_input (o : Outcomes) (a0 arg1 : String) (rest : List String) :
    mainRun o [] = ([.print "invalid input\n"], true)
    ∧ mainRun o [a0] = ([.print "invalid input\n"], true)
    ∧ (arg1 ∉ caseIds →
        mainRun o (a0 :: arg1 :: rest) = ([.print "invalid input\n"], true)) :=
  ⟨rfl, rfl, fun h => mainRun_invalid o a0 arg1 rest h⟩

/-- C10 witness: "case12" is not a recognized identifier, and the program
answers it with only the "invalid input" line. -/
theorem invalid_input_witness :
    "case12" ∉ caseIds
    ∧ mainRun okOutcomes ["prog", "case12"] = ([.print "invalid input\n"], true) :=
  ⟨by decide, (invalid_input okOutcomes "prog" "case12" []).2.2 (by decide)⟩

end Harness
